import Mathlib

set_option maxHeartbeats 1000000

/-!
Verification development for the LLMStack processor runtime
(llmstack/processors/providers/api_processor_interface.py) and the
static web browser processor
(llmstack/processors/providers/promptly/static_web_browser.py).

Python values that flow through the runtime (dicts, strings, lists,
numbers, pydantic model instances) are embedded as the inductive type
`Value`.  A pydantic model instance is `Value.schema name fields`; its
`model_dump()` is the recursive conversion to plain dicts.
-/

inductive Value where
  | null : Value
  | bool (b : Bool) : Value
  | int (n : Int) : Value
  | str (s : String) : Value
  | list (xs : List Value) : Value
  | dict (kvs : List (String × Value)) : Value
  | schema (name : String) (fields : List (String × Value)) : Value

/-- Python truthiness of an embedded value: None, False, 0, empty string,
empty list and empty dict are falsy; pydantic model instances are truthy. -/
def Value.truthy : Value → Bool
  | .null => false
  | .bool b => b
  | .int n => n != 0
  | .str s => s != ""
  | .list xs => !xs.isEmpty
  | .dict kvs => !kvs.isEmpty
  | .schema _ _ => true

/-- Mirrors the Python `isinstance(v, BaseModel)` test. -/
def Value.isSchema : Value → Bool
  | .schema _ _ => true
  | _ => false

mutual

/-- Recursive `model_dump()`: a pydantic model instance becomes a plain
dict, with nested instances dumped as well. -/
def modelDump : Value → Value
  | .null => .null
  | .bool b => .bool b
  | .int n => .int n
  | .str s => .str s
  | .list xs => .list (modelDumpList xs)
  | .dict kvs => .dict (modelDumpKVs kvs)
  | .schema _ fields => .dict (modelDumpKVs fields)

def modelDumpList : List Value → List Value
  | [] => []
  | v :: vs => modelDump v :: modelDumpList vs

def modelDumpKVs : List (String × Value) → List (String × Value)
  | [] => []
  | (k, v) :: kvs => (k, modelDump v) :: modelDumpKVs kvs

end

/-- First-match key lookup in an embedded dict (keyword arguments have no
duplicate keys). -/
def lookupKV (k : String) : List (String × Value) → Option Value
  | [] => none
  | (k2, v) :: rest => if k2 = k then some v else lookupKV k rest

/-!
The bookkeeping record built by `ApiProcessorInterface.input`
(`BookKeepingData` lives in llmstack/play/actor.py; its fields are the
keyword arguments used at lines 377-384 of api_processor_interface.py,
plus the `usage_data` field assigned at line 386).  `time.time()` is
embedded as a natural number supplied by the environment.
-/

structure BookKeepingData where
  input : Value
  config : Value
  output : Value
  session_data : Value
  timestamp : Nat
  disable_history : Bool
  usage_data : Value

/-- Observable effects of one `input(message)` call, in order: the
processor `process()` call, the `error` signal on the output stream, the
`save_app_session_data` call (with the outcome the session store
reported), the `bookkeep` emission on the output stream, and `on_stop`. -/
inductive Event where
  | processCall : Event
  | errorSig (msg : String) : Event
  | save (session_id : String) (id : String) (data : Value) (outcome : Except String Unit) : Event
  | bookkeep (record : Option BookKeepingData) : Event
  | onStop : Event

/-- Actor-local state of an `ApiProcessorInterface` instance.  Source
fields: `_input_template`, `_config_template` (set once in `__init__`,
lines 170-173), `_input`, `_config` (the resolved forms, replaced by
`input`), `_input_fields`, `_is_tool`, `_session_enabled`, `_session_id`
and the actor `_id`. -/
structure ActorState where
  input_template : Value
  config_template : Value
  resolved_input : Value
  resolved_config : Value
  input_fields : List String
  is_tool : Bool
  session_enabled : Bool
  session_id : String
  id : String

/-- Per-invocation behaviour of the concrete processor subclass: the
overridable hooks of `ApiProcessorInterface` that `input` consults.
`mkInput` is the pydantic construction `self._get_input_class()(**kw)`
(validation may raise); `processResult` is what `self.process()` does
(returns an output value or raises); the remaining fields are the
`get_bookkeeping_data`, `session_data_to_persist`, `usage_data` and
`disable_history` hooks (their interface defaults are `none`, the empty
dict, a credits/metrics dict, and `false`). -/
structure Processor where
  mkInput : List (String × Value) → Except String Value
  processResult : Except String Value
  get_bookkeeping_data : Option BookKeepingData
  session_data_to_persist : Value
  usage_data : Value
  disable_history : Bool

/-- External collaborators of one invocation: `hydrate` is
`hydrate_input(template, message)` from llmstack/common/utils/liquid.py
(not under src/, so kept abstract; it may raise), `save_result` is the
outcome the session store reports for `save_app_session_data`, and `now`
is `time.time()`.

Modelled from the spec: `save_app_session_data`
(llmstack/apps/app_session_utils.py) is not under src/.  Per the spec, a
`SessionPersistenceError` is logged and surfaced but does not block
emission of the bookkeeping record already built, so the model records
the save attempt with its outcome and continues regardless of it. -/
structure Env where
  hydrate : Value → Option Value → Except String Value
  save_result : Except String Unit
  now : Nat

/-- The error payload synthesized at lines 356-362 of
api_processor_interface.py when hydration or `process()` raises. -/
def errorOutput (m : String) : Value :=
  .dict [("errors", .list [.str m]),
         ("raw_response", .dict [("text", .str m), ("status_code", .int 400)])]

/-- Python `f(**message)`: requires a mapping; `None` or a non-dict raises
`TypeError`. -/
def kwargsOf : Option Value → Except String (List (String × Value))
  | none => .error "TypeError: argument of type NoneType is not a mapping"
  | some (.dict kvs) => .ok kvs
  | some _ => .error "TypeError: argument after ** must be a mapping"

/-- The conversion applied to `self._input` and `self._config` at lines
368-371: `x.model_dump() if x and isinstance(x, BaseModel) else x`. -/
def toDictIfModel (v : Value) : Value :=
  if v.truthy && v.isSchema then modelDump v else v

/-- The conversion applied to `output` at lines 372-374:
`output_dict = {}` then, if `output` is truthy,
`output.model_dump() if isinstance(output, BaseModel) else output`. -/
def outputToDict (output : Value) : Value :=
  if output.truthy then (if output.isSchema then modelDump output else output)
  else .dict []

/-- Lines 367-395 of api_processor_interface.py: the bookkeeping epilogue
that runs after the try/except block, with `a` the actor state at that
point, `output` the value of the `output` local and `pre` the events
already produced.  It asks `get_bookkeeping_data` for a custom record,
builds the default record when there is none, attaches usage data, saves
the session data, emits the record via `bookkeep` and, for tools, signals
`on_stop`. -/
def epilogue (a : ActorState) (proc : Processor) (env : Env) (output : Value)
    (pre : List Event) : ActorState × List Event :=
  let bk0 := proc.get_bookkeeping_data
  let bk1 : Option BookKeepingData :=
    if bk0.isNone then
      some { input := toDictIfModel a.resolved_input,
             config := toDictIfModel a.resolved_config,
             output := outputToDict output,
             session_data :=
               if a.session_enabled then proc.session_data_to_persist else .dict [],
             timestamp := env.now,
             disable_history := proc.disable_history,
             usage_data := .null }
    else bk0
  match bk1 with
  | some b =>
      let b2 := { b with usage_data := proc.usage_data }
      (a, pre ++ [Event.save a.session_id a.id b2.session_data env.save_result,
                  Event.bookkeep (some b2)]
             ++ (if a.is_tool then [Event.onStop] else []))
  | none =>
      (a, pre ++ [Event.bookkeep none]
             ++ (if a.is_tool then [Event.onStop] else []))

/-- The except branch at lines 354-365: synthesize the error payload,
signal `error` on the output stream, then fall through to the epilogue. -/
def errorPath (a : ActorState) (proc : Processor) (env : Env) (e : String)
    (pre : List Event) : ActorState × List Event :=
  epilogue a proc env (errorOutput e) (pre ++ [Event.errorSig e])

/-- Line 353: `output = self.process()`, with the exception handler
around it. -/
def runProcess (a : ActorState) (proc : Processor) (env : Env) :
    ActorState × List Event :=
  match proc.processResult with
  | .ok out => epilogue a proc env out [Event.processCall]
  | .error e => errorPath a proc env e [Event.processCall]

/-- The operation `ApiProcessorInterface.input(message)`, lines 325-395.  The three
hydration modes at lines 327-352 are translated branch for branch;
exceptions raised by pydantic input construction, by `hydrate_input` or
by `process()` are caught by the surrounding handler, which synthesizes
the error payload and signals `error`; either way the bookkeeping
epilogue runs.  Python truthiness of `message` and of `self._config`
guards the normal-mode hydrations exactly as at lines 336-352. -/
def msgTruthy : Option Value → Bool
  | none => false
  | some m => m.truthy

def input (a : ActorState) (proc : Processor) (env : Env) (message : Option Value) :
    ActorState × List Event :=
  if a.is_tool && a.input_fields.length == 0 then
    match kwargsOf message with
    | .error e => errorPath a proc env e []
    | .ok kw =>
      match proc.mkInput kw with
      | .error e => errorPath a proc env e []
      | .ok v =>
        match env.hydrate a.config_template message with
        | .error e => errorPath { a with resolved_input := v } proc env e []
        | .ok cfg =>
          runProcess { a with resolved_input := v, resolved_config := cfg } proc env
  else if a.is_tool then
    match env.hydrate a.input_template message with
    | .error e => errorPath a proc env e []
    | .ok hydrated =>
      match kwargsOf (some (if hydrated.isSchema then modelDump hydrated else hydrated)) with
      | .error e => errorPath a proc env e []
      | .ok kw =>
        match proc.mkInput kw with
        | .error e => errorPath a proc env e []
        | .ok v =>
          match env.hydrate a.config_template message with
          | .error e => errorPath { a with resolved_input := v } proc env e []
          | .ok cfg =>
            runProcess { a with resolved_input := v, resolved_config := cfg } proc env
  else
    match (if msgTruthy message then env.hydrate a.input_template message
           else .ok a.input_template) with
    | .error e => errorPath a proc env e []
    | .ok inp =>
      match (if a.resolved_config.truthy && msgTruthy message then
               env.hydrate a.config_template message
             else .ok a.config_template) with
      | .error e => errorPath { a with resolved_input := inp } proc env e []
      | .ok cfg =>
        runProcess { a with resolved_input := inp, resolved_config := cfg } proc env

/-- A sequence of `input` calls against one actor instance, each with its
own message, processor behaviour and environment. -/
def runSeq (a : ActorState) : List (Processor × Env × Option Value) → ActorState
  | [] => a
  | (p, e, m) :: rest => runSeq (input a p e m).1 rest

/-- Number of `bookkeep` emissions in a trace. -/
def countBookkeep : List Event → Nat
  | [] => 0
  | Event.bookkeep _ :: rest => countBookkeep rest + 1
  | _ :: rest => countBookkeep rest

/-- Number of `save_app_session_data` calls in a trace. -/
def countSave : List Event → Nat
  | [] => 0
  | Event.save _ _ _ _ :: rest => countSave rest + 1
  | _ :: rest => countSave rest

/-- Number of `process()` calls in a trace. -/
def countProcessCalls : List Event → Nat
  | [] => 0
  | Event.processCall :: rest => countProcessCalls rest + 1
  | _ :: rest => countProcessCalls rest

/-!
Static web browser processor
(llmstack/processors/providers/promptly/static_web_browser.py).
-/

/-- The `BrowserInstructionType` string enum, lines 29-38. -/
inductive BrowserInstructionType where
  | CLICK | TYPE | WAIT | GOTO | COPY | TERMINATE | ENTER | SCROLLX | SCROLLY
deriving DecidableEq

/-- The `value` of each enum member. -/
def BrowserInstructionType.value : BrowserInstructionType → String
  | .CLICK => "Click"
  | .TYPE => "Type"
  | .WAIT => "Wait"
  | .GOTO => "Goto"
  | .COPY => "Copy"
  | .TERMINATE => "Terminate"
  | .ENTER => "Enter"
  | .SCROLLX => "Scrollx"
  | .SCROLLY => "Scrolly"

/-- The nine declared enum values, in declaration order. -/
def browserInstructionTypeValues : List String :=
  ["Click", "Type", "Wait", "Goto", "Copy", "Terminate", "Enter", "Scrollx", "Scrolly"]

/-- A validated `BrowserInstruction` (lines 41-48) as the translation
function receives it: `type` is the string stored after validation,
`selector` and `data` are optional strings defaulting to `None`. -/
structure BrowserInstruction where
  type : String
  selector : Option String
  data : Option String

/-- The `WebBrowserCommandType` enum of the langrocks command set. -/
inductive WebBrowserCommandType where
  | GOTO | CLICK | WAIT | COPY | SCROLL_X | SCROLL_Y | TERMINATE | ENTER | TYPE
deriving DecidableEq

/-- The `instruction_type` local of `_web_browser_instruction_to_command`
starts as the instruction type string and is replaced by a command-type
enum member when one of the nine comparisons matches; a string that
matches none of them flows through unchanged. -/
inductive CommandTypeVal where
  | cmd (c : WebBrowserCommandType)
  | raw (s : String)
deriving DecidableEq

/-- The `WebBrowserCommand` built at lines 192-194. -/
structure WebBrowserCommand where
  command_type : CommandTypeVal
  data : String
  selector : String
deriving DecidableEq

/-- The method translating instructions to commands,
`StaticWebBrowser._web_browser_instruction_to_command` at lines 171-194: the if/elif chain comparing `instruction.type` against each
`BrowserInstructionType` value, then the command construction with
`data=(instruction.data or "")` and `selector=(instruction.selector or "")`. -/
def webBrowserInstructionToCommand (instruction : BrowserInstruction) : WebBrowserCommand :=
  let instruction_type : CommandTypeVal :=
    if instruction.type = BrowserInstructionType.GOTO.value then .cmd .GOTO
    else if instruction.type = BrowserInstructionType.CLICK.value then .cmd .CLICK
    else if instruction.type = BrowserInstructionType.WAIT.value then .cmd .WAIT
    else if instruction.type = BrowserInstructionType.COPY.value then .cmd .COPY
    else if instruction.type = BrowserInstructionType.SCROLLX.value then .cmd .SCROLL_X
    else if instruction.type = BrowserInstructionType.SCROLLY.value then .cmd .SCROLL_Y
    else if instruction.type = BrowserInstructionType.TERMINATE.value then .cmd .TERMINATE
    else if instruction.type = BrowserInstructionType.ENTER.value then .cmd .ENTER
    else if instruction.type = BrowserInstructionType.TYPE.value then .cmd .TYPE
    else .raw instruction.type
  { command_type := instruction_type,
    data := instruction.data.getD "",
    selector := instruction.selector.getD "" }

/-- Stated from the spec (for the refinement claim about the instruction
translation): the correspondence between declared instruction names and
remote browser command types that the spec describes. -/
def specCommandTypeFor (t : String) : Option WebBrowserCommandType :=
  if t = "Click" then some .CLICK
  else if t = "Type" then some .TYPE
  else if t = "Wait" then some .WAIT
  else if t = "Goto" then some .GOTO
  else if t = "Copy" then some .COPY
  else if t = "Scrollx" then some .SCROLL_X
  else if t = "Scrolly" then some .SCROLL_Y
  else if t = "Enter" then some .ENTER
  else if t = "Terminate" then some .TERMINATE
  else none

/-- Python `str.capitalize()`: first character uppercased, the rest
lowercased. -/
def pyCapitalize (s : String) : String :=
  match s.data with
  | [] => ""
  | c :: cs => String.mk (c.toUpper :: cs.map Char.toLower)

/-- Python `str.lower`, on the character list (the builtin
`String.toLower` does not reduce definitionally). -/
def pyLower (s : String) : String :=
  String.mk (s.data.map Char.toLower)

/-- The `validate_type` field validator of `BrowserInstruction`, lines
46-48: `v.lower().capitalize()`. -/
def validate_type (v : String) : String :=
  pyCapitalize (pyLower v)

/-- Pydantic construction of a `BrowserInstruction` from an embedded
value.  The `type` annotation is the `BrowserInstructionType` enum; its
base `StrEnum` (llmstack/common/blocks/base/schema.py, not under src/) is
taken to validate by exact enum value, after which the after-mode field
validator `validate_type` runs.  `selector` and `data` are optional
strings defaulting to `None`. -/
def mkBrowserInstruction (v : Value) : Except String Value :=
  match v with
  | .dict kvs =>
    match lookupKV "type" kvs with
    | some (.str s) =>
      if s ∈ browserInstructionTypeValues then
        let sel := (lookupKV "selector" kvs).getD .null
        let dat := (lookupKV "data" kvs).getD .null
        let strOrNull : Value → Bool := fun x =>
          match x with
          | .null => true
          | .str _ => true
          | _ => false
        if strOrNull sel && strOrNull dat then
          .ok (.schema "BrowserInstruction"
            [("type", .str (validate_type s)), ("selector", sel), ("data", dat)])
        else .error "ValidationError: selector and data must be strings"
      else .error "ValidationError: type is not a valid BrowserInstructionType"
    | some _ => .error "ValidationError: type is not a valid BrowserInstructionType"
    | none => .error "ValidationError: type field required"
  | _ => .error "ValidationError: instruction must be a dict"

/-- Pydantic construction of `StaticWebBrowserInput` (lines 82-89) from
keyword arguments: `url` is a required string, `instructions` a required
list whose elements are validated as `BrowserInstruction`. -/
def mkStaticWebBrowserInput (kw : List (String × Value)) : Except String Value :=
  match lookupKV "url" kw with
  | some (.str u) =>
    match lookupKV "instructions" kw with
    | some (.list xs) =>
      match xs.mapM mkBrowserInstruction with
      | .ok ys =>
        .ok (.schema "StaticWebBrowserInput"
          [("url", .str u), ("instructions", .list ys)])
      | .error e => .error e
    | some _ => .error "ValidationError: instructions must be a list"
    | none => .error "ValidationError: instructions field required"
  | some _ => .error "ValidationError: url must be a string"
  | none => .error "ValidationError: url field required"

/-!
Asset upload, `ApiProcessorInterface._upload_asset_from_url`, lines
93-122 of api_processor_interface.py.
-/

/-- Python `str.startswith`, modelled on the character list (the builtin
`String.startsWith` does not reduce definitionally). -/
def strStartsWith (s p : String) : Bool := p.data.isPrefixOf s.data

/-- The acting user, as far as the upload path reads it
(`self._request_user.email`). -/
structure UserRec where
  email : String

/-- A created asset object, as far as the callers read it. -/
structure AssetObj where
  objref : String
deriving DecidableEq

/-- The `AppSessionFiles` asset store collaborators
(llmstack/apps/models.py, outside this core per the spec): the three
creation operations used by `_upload_asset_from_url`, each of which may
raise. -/
structure AssetStore where
  create_streaming_asset : Value → Except String AssetObj
  create_from_data_uri : String → Value → Except String AssetObj
  create_from_url : String → Value → Except String AssetObj

/-- The metadata dict built at lines 97-106: `app_uuid` and `username`
always, `file_name` and `mime_type` only when truthy. -/
def assetMetadata (app_uuid : String) (email : String)
    (file_name mime_type : Option String) : Value :=
  .dict ([("app_uuid", .str app_uuid), ("username", .str email)]
    ++ (match file_name with
        | some f => if f ≠ "" then [("file_name", Value.str f)] else []
        | none => [])
    ++ (match mime_type with
        | some m => if m ≠ "" then [("mime_type", Value.str m)] else []
        | none => []))

/-- The body of the try block at lines 96-114: read the user email for
the metadata (an absent user raises), then dispatch on the `asset`
argument: absent asset creates a streaming asset, a `data:` URI creates
from the data URI, anything else creates from a URL. -/
def uploadTryCreate (store : AssetStore) (request_user : Option UserRec)
    (app_uuid : String) (asset : Option String)
    (file_name mime_type : Option String) : Except String AssetObj :=
  match request_user with
  | none => .error "AttributeError: NoneType object has no attribute email"
  | some u =>
    let meta := assetMetadata app_uuid u.email file_name mime_type
    match asset with
    | none => store.create_streaming_asset meta
    | some s =>
      if strStartsWith s "data:" then store.create_from_data_uri s meta
      else store.create_from_url s meta

/-- The method `_upload_asset_from_url`: run the try block; on success return the
created asset object, on any exception log it and return the `asset`
argument unchanged (lines 115-118). -/
def upload_asset_from_url (store : AssetStore) (request_user : Option UserRec)
    (app_uuid : String) (asset : Option String)
    (file_name mime_type : Option String) : Sum (Option String) AssetObj :=
  match uploadTryCreate store request_user app_uuid asset file_name mime_type with
  | .ok a => .inr a
  | .error _ => .inl asset

/-!
Concrete instances used to evaluate the model on explicit inputs.
-/

/-- An environment whose hydration substitutes nothing (returns the
template unchanged), whose session save succeeds, at clock 7. -/
def demoEnv : Env :=
  { hydrate := fun t _ => Except.ok t, save_result := Except.ok (), now := 7 }

/-- A hydration function that raises on any use. -/
def failingHydrate : Value → Option Value → Except String Value :=
  fun _ _ => Except.error "hydrate invoked"

/-- A hydration function that returns the template unchanged. -/
def identityHydrate : Value → Option Value → Except String Value :=
  fun t _ => Except.ok t

/-- A normal-mode, session-enabled actor with empty dict templates. -/
def demoActor : ActorState :=
  { input_template := Value.dict [], config_template := Value.dict [],
    resolved_input := Value.dict [], resolved_config := Value.dict [],
    input_fields := [], is_tool := false, session_enabled := true,
    session_id := "sess-0", id := "proc-0" }

/-- A processor whose `process()` succeeds with a small dict output and
whose hooks keep their interface defaults except for a nonempty session
delta. -/
def okProc : Processor :=
  { mkInput := fun kw => Except.ok (Value.dict kw),
    processResult := Except.ok (Value.dict [("text", Value.str "hi")]),
    get_bookkeeping_data := none,
    session_data_to_persist := Value.dict [("k", Value.str "v")],
    usage_data := Value.dict [("credits", Value.int 1000)],
    disable_history := false }

/-- A processor whose `process()` raises with message
`connection refused`. -/
def failingProc : Processor :=
  { mkInput := fun kw => Except.ok (Value.dict kw),
    processResult := Except.error "connection refused",
    get_bookkeeping_data := none,
    session_data_to_persist := Value.dict [],
    usage_data := Value.dict [("credits", Value.int 1000)],
    disable_history := false }

/-- A processor whose `process()` returns a bare integer — neither a
schema instance nor a plain key-value dictionary. -/
def invalidResultProc : Processor :=
  { mkInput := fun kw => Except.ok (Value.dict kw),
    processResult := Except.ok (Value.int 5),
    get_bookkeeping_data := none,
    session_data_to_persist := Value.dict [],
    usage_data := Value.dict [("credits", Value.int 1000)],
    disable_history := false }

/-- A custom bookkeeping record as a processor overriding
`get_bookkeeping_data` may supply. -/
def customRecord : BookKeepingData :=
  { input := Value.dict [], config := Value.dict [],
    output := Value.dict [("custom", Value.bool true)],
    session_data := Value.dict [], timestamp := 0,
    disable_history := false, usage_data := Value.null }

/-- A processor whose `process()` raises and that supplies a custom
bookkeeping record. -/
def customBookkeepingProc : Processor :=
  { mkInput := fun kw => Except.ok (Value.dict kw),
    processResult := Except.error "connection refused",
    get_bookkeeping_data := some customRecord,
    session_data_to_persist := Value.dict [],
    usage_data := Value.dict [("credits", Value.int 1000)],
    disable_history := false }

/-- A processor whose `process()` succeeds, that supplies a custom
bookkeeping record, and whose session delta hook returns a nonempty
dictionary. -/
def customDeltaProc : Processor :=
  { mkInput := fun kw => Except.ok (Value.dict kw),
    processResult := Except.ok (Value.dict [("text", Value.str "done")]),
    get_bookkeeping_data := some customRecord,
    session_data_to_persist := Value.dict [("counter", Value.int 2)],
    usage_data := Value.dict [("credits", Value.int 1000)],
    disable_history := false }

/-- A session-disabled actor. -/
def sessionDisabledActor : ActorState :=
  { input_template := Value.dict [], config_template := Value.dict [],
    resolved_input := Value.dict [], resolved_config := Value.dict [],
    input_fields := [], is_tool := false, session_enabled := false,
    session_id := "sess-3", id := "proc-3" }

/-- A processor with a nonempty session delta and a successful
`process()`. -/
def sessionDeltaProc : Processor :=
  { mkInput := fun kw => Except.ok (Value.dict kw),
    processResult := Except.ok (Value.dict [("text", Value.str "done")]),
    get_bookkeeping_data := none,
    session_data_to_persist := Value.dict [("counter", Value.int 1)],
    usage_data := Value.dict [("credits", Value.int 1000)],
    disable_history := false }

/-- A tool-mode actor with no declared input fields. -/
def toolActor : ActorState :=
  { input_template := Value.dict [], config_template := Value.dict [],
    resolved_input := Value.dict [], resolved_config := Value.dict [],
    input_fields := [], is_tool := true, session_enabled := true,
    session_id := "sess-6", id := "proc-6" }

/-- A static web browser processor instance: its input class is
`StaticWebBrowserInput` and its other hooks keep the interface
defaults. -/
def swbProc : Processor :=
  { mkInput := mkStaticWebBrowserInput,
    processResult := Except.ok (Value.dict [("text", Value.str "ok")]),
    get_bookkeeping_data := none,
    session_data_to_persist := Value.dict [],
    usage_data := Value.dict [("credits", Value.int 1000)],
    disable_history := false }

/-- The tool-mode message of the spec scenario: a url and an empty
instruction list. -/
def specToolMessage : List (String × Value) :=
  [("url", Value.str "https://x.test"), ("instructions", Value.list [])]

/-- A tool-mode message whose instruction omits the optional selector and
data fields. -/
def clickMessage : List (String × Value) :=
  [("url", Value.str "https://x.test"),
   ("instructions", Value.list [Value.dict [("type", Value.str "Click")]])]

/-- The template input of the normal-mode spec scenario. -/
def exampleTemplateInput : Value :=
  Value.schema "StaticWebBrowserInput"
    [("url", Value.str "https://example.com"), ("instructions", Value.list [])]

/-- A normal-mode actor built from the scenario template. -/
def normalActor : ActorState :=
  { input_template := exampleTemplateInput,
    config_template := Value.schema "StaticWebBrowserConfiguration"
      [("timeout", Value.int 10)],
    resolved_input := exampleTemplateInput,
    resolved_config := Value.schema "StaticWebBrowserConfiguration"
      [("timeout", Value.int 10)],
    input_fields := [], is_tool := false, session_enabled := true,
    session_id := "sess-5", id := "proc-5" }

/-!
Helper lemmas about the epilogue and the event counters.
-/

theorem countBookkeep_append (l1 l2 : List Event) :
    countBookkeep (l1 ++ l2) = countBookkeep l1 + countBookkeep l2 := by
  induction l1 with
  | nil => simp [countBookkeep]
  | cons e rest ih => cases e <;> simp [countBookkeep, ih] <;> omega

theorem countSave_append (l1 l2 : List Event) :
    countSave (l1 ++ l2) = countSave l1 + countSave l2 := by
  induction l1 with
  | nil => simp [countSave]
  | cons e rest ih => cases e <;> simp [countSave, ih] <;> omega

theorem countProcessCalls_append (l1 l2 : List Event) :
    countProcessCalls (l1 ++ l2) = countProcessCalls l1 + countProcessCalls l2 := by
  induction l1 with
  | nil => simp [countProcessCalls]
  | cons e rest ih => cases e <;> simp [countProcessCalls, ih] <;> omega

theorem epilogue_state (a : ActorState) (proc : Processor) (env : Env)
    (output : Value) (pre : List Event) :
    (epilogue a proc env output pre).1 = a := by
  cases hbk : proc.get_bookkeeping_data <;> simp [epilogue, hbk]

/-- The epilogue always appends exactly one save event followed by one
bookkeep event carrying a record; when the processor supplies no custom
record, the emitted record carries the output dict of the `output` local
and the session delta selected by `session_enabled`. -/
theorem epilogue_trace (a : ActorState) (proc : Processor) (env : Env)
    (output : Value) (pre : List Event) :
    ∃ b : BookKeepingData,
      (epilogue a proc env output pre).2 =
        pre ++ [Event.save a.session_id a.id b.session_data env.save_result,
                Event.bookkeep (some b)]
          ++ (if a.is_tool then [Event.onStop] else []) ∧
      (proc.get_bookkeeping_data = none →
        b.output = outputToDict output ∧
        b.session_data =
          (if a.session_enabled then proc.session_data_to_persist else .dict [])) := by
  cases hbk : proc.get_bookkeeping_data with
  | none =>
      refine ⟨{ input := toDictIfModel a.resolved_input,
                config := toDictIfModel a.resolved_config,
                output := outputToDict output,
                session_data :=
                  if a.session_enabled then proc.session_data_to_persist else .dict [],
                timestamp := env.now,
                disable_history := proc.disable_history,
                usage_data := proc.usage_data }, ?_, fun _ => ⟨rfl, rfl⟩⟩
      simp [epilogue, hbk]
  | some b =>
      refine ⟨{ b with usage_data := proc.usage_data }, ?_, by simp [hbk]⟩
      simp [epilogue, hbk]

/-- Every path through `input` ends in the epilogue: the state at
bookkeeping time differs from the initial state at most in the resolved
fields, and the events before the epilogue are either a lone process
call (success) or end in an error signal carrying the raised message,
with the `output` local holding the synthesized error payload. -/
theorem input_shape (a : ActorState) (proc : Processor) (env : Env)
    (message : Option Value) :
    ∃ (a2 : ActorState) (pre : List Event) (out : Value),
      input a proc env message = epilogue a2 proc env out pre ∧
      a2.input_template = a.input_template ∧
      a2.config_template = a.config_template ∧
      a2.input_fields = a.input_fields ∧
      a2.is_tool = a.is_tool ∧
      a2.session_enabled = a.session_enabled ∧
      a2.session_id = a.session_id ∧
      a2.id = a.id ∧
      (pre = [Event.processCall] ∨
        ∃ m, out = errorOutput m ∧
          (pre = [Event.errorSig m] ∨ pre = [Event.processCall, Event.errorSig m])) := by
  unfold input
  split
  · cases hkw : kwargsOf message with
    | error e =>
        dsimp only
        exact ⟨a, _, _, rfl, rfl, rfl, rfl, rfl, rfl, rfl, rfl,
          Or.inr ⟨e, rfl, Or.inl rfl⟩⟩
    | ok kw =>
        dsimp only
        cases hmk : proc.mkInput kw with
        | error e =>
            dsimp only
            exact ⟨a, _, _, rfl, rfl, rfl, rfl, rfl, rfl, rfl, rfl,
              Or.inr ⟨e, rfl, Or.inl rfl⟩⟩
        | ok v =>
            dsimp only
            cases hcf : env.hydrate a.config_template message with
            | error e =>
                dsimp only
                exact ⟨{ a with resolved_input := v }, _, _, rfl, rfl, rfl, rfl,
                  rfl, rfl, rfl, rfl, Or.inr ⟨e, rfl, Or.inl rfl⟩⟩
            | ok cfg =>
                dsimp only
                cases hpr : proc.processResult with
                | ok out =>
                    exact ⟨{ a with resolved_input := v, resolved_config := cfg },
                      [Event.processCall], out,
                      by unfold runProcess; rw [hpr],
                      rfl, rfl, rfl, rfl, rfl, rfl, rfl, Or.inl rfl⟩
                | error e =>
                    exact ⟨{ a with resolved_input := v, resolved_config := cfg },
                      [Event.processCall, Event.errorSig e], errorOutput e,
                      by unfold runProcess; rw [hpr]; rfl,
                      rfl, rfl, rfl, rfl, rfl, rfl, rfl,
                      Or.inr ⟨e, rfl, Or.inr rfl⟩⟩
  · split
    · cases hhy : env.hydrate a.input_template message with
      | error e =>
          dsimp only
          exact ⟨a, _, _, rfl, rfl, rfl, rfl, rfl, rfl, rfl, rfl,
            Or.inr ⟨e, rfl, Or.inl rfl⟩⟩
      | ok hydrated =>
          dsimp only
          cases hkw : kwargsOf (some (if hydrated.isSchema then modelDump hydrated
              else hydrated)) with
          | error e =>
              dsimp only
              exact ⟨a, _, _, rfl, rfl, rfl, rfl, rfl, rfl, rfl, rfl,
                Or.inr ⟨e, rfl, Or.inl rfl⟩⟩
          | ok kw =>
              dsimp only
              cases hmk : proc.mkInput kw with
              | error e =>
                  dsimp only
                  exact ⟨a, _, _, rfl, rfl, rfl, rfl, rfl, rfl, rfl, rfl,
                    Or.inr ⟨e, rfl, Or.inl rfl⟩⟩
              | ok v =>
                  dsimp only
                  cases hcf : env.hydrate a.config_template message with
                  | error e =>
                      dsimp only
                      exact ⟨{ a with resolved_input := v }, _, _, rfl, rfl, rfl,
                        rfl, rfl, rfl, rfl, rfl, Or.inr ⟨e, rfl, Or.inl rfl⟩⟩
                  | ok cfg =>
                      dsimp only
                      cases hpr : proc.processResult with
                      | ok out =>
                          exact ⟨{ a with resolved_input := v, resolved_config := cfg },
                            [Event.processCall], out,
                            by unfold runProcess; rw [hpr],
                            rfl, rfl, rfl, rfl, rfl, rfl, rfl, Or.inl rfl⟩
                      | error e =>
                          exact ⟨{ a with resolved_input := v, resolved_config := cfg },
                            [Event.processCall, Event.errorSig e], errorOutput e,
                            by unfold runProcess; rw [hpr]; rfl,
                            rfl, rfl, rfl, rfl, rfl, rfl, rfl,
                            Or.inr ⟨e, rfl, Or.inr rfl⟩⟩
    · cases hhy : (if msgTruthy message then env.hydrate a.input_template message
                   else Except.ok a.input_template) with
      | error e =>
          dsimp only
          exact ⟨a, _, _, rfl, rfl, rfl, rfl, rfl, rfl, rfl, rfl,
            Or.inr ⟨e, rfl, Or.inl rfl⟩⟩
      | ok inp =>
          dsimp only
          cases hcf : (if a.resolved_config.truthy && msgTruthy message then
                         env.hydrate a.config_template message
                       else Except.ok a.config_template) with
          | error e =>
              dsimp only
              exact ⟨{ a with resolved_input := inp }, _, _, rfl, rfl, rfl, rfl,
                rfl, rfl, rfl, rfl, Or.inr ⟨e, rfl, Or.inl rfl⟩⟩
          | ok cfg =>
              dsimp only
              cases hpr : proc.processResult with
              | ok out =>
                  exact ⟨{ a with resolved_input := inp, resolved_config := cfg },
                    [Event.processCall], out,
                    by unfold runProcess; rw [hpr],
                    rfl, rfl, rfl, rfl, rfl, rfl, rfl, Or.inl rfl⟩
              | error e =>
                  exact ⟨{ a with resolved_input := inp, resolved_config := cfg },
                    [Event.processCall, Event.errorSig e], errorOutput e,
                    by unfold runProcess; rw [hpr]; rfl,
                    rfl, rfl, rfl, rfl, rfl, rfl, rfl,
                    Or.inr ⟨e, rfl, Or.inr rfl⟩⟩

theorem countBookkeep_epilogue (a : ActorState) (proc : Processor) (env : Env)
    (output : Value) (pre : List Event) :
    countBookkeep (epilogue a proc env output pre).2 = countBookkeep pre + 1 := by
  obtain ⟨b, htr, -⟩ := epilogue_trace a proc env output pre
  rw [htr, countBookkeep_append, countBookkeep_append]
  cases a.is_tool <;> simp [countBookkeep]

/-- Claim C1: for every call of the actor input operation, the output
stream bookkeep operation is invoked exactly once — whatever the message,
whatever the hydration and process outcomes (success or exception), and
for every outcome of the session-save step, since the save outcome does
not influence the rest of the trace. -/
theorem input_bookkeeps_exactly_once (a : ActorState) (proc : Processor)
    (env : Env) (message : Option Value) :
    countBookkeep (input a proc env message).2 = 1 := by
  obtain ⟨a2, pre, out, heq, -, -, -, -, -, -, -, hpre⟩ := input_shape a proc env message
  rw [heq, countBookkeep_epilogue]
  rcases hpre with h | ⟨m, -, h | h⟩ <;> simp [h, countBookkeep]

/-- One `input` call leaves every actor field except the resolved input
and resolved config unchanged. -/
theorem input_frame (a : ActorState) (proc : Processor) (env : Env)
    (message : Option Value) :
    ((input a proc env message).1).input_template = a.input_template ∧
    ((input a proc env message).1).config_template = a.config_template ∧
    ((input a proc env message).1).input_fields = a.input_fields ∧
    ((input a proc env message).1).is_tool = a.is_tool ∧
    ((input a proc env message).1).session_enabled = a.session_enabled ∧
    ((input a proc env message).1).session_id = a.session_id ∧
    ((input a proc env message).1).id = a.id := by
  obtain ⟨a2, pre, out, heq, h1, h2, h3, h4, h5, h6, h7, -⟩ :=
    input_shape a proc env message
  rw [heq, epilogue_state]
  exact ⟨h1, h2, h3, h4, h5, h6, h7⟩

/-- Claim C7: across every sequence of `input` calls, the template forms
of input and config keep their construction-time values — an invocation
only ever replaces the resolved fields, and the same holds for the
declared input fields, the tool flag, the session flag and the actor
identifiers. -/
theorem templates_immutable_across_invocations (a : ActorState)
    (steps : List (Processor × Env × Option Value)) :
    (runSeq a steps).input_template = a.input_template ∧
    (runSeq a steps).config_template = a.config_template ∧
    (runSeq a steps).input_fields = a.input_fields ∧
    (runSeq a steps).is_tool = a.is_tool ∧
    (runSeq a steps).session_enabled = a.session_enabled ∧
    (runSeq a steps).session_id = a.session_id ∧
    (runSeq a steps).id = a.id := by
  induction steps generalizing a with
  | nil => exact ⟨rfl, rfl, rfl, rfl, rfl, rfl, rfl⟩
  | cons s rest ih =>
      obtain ⟨p, e, m⟩ := s
      obtain ⟨f1, f2, f3, f4, f5, f6, f7⟩ := input_frame a p e m
      obtain ⟨g1, g2, g3, g4, g5, g6, g7⟩ := ih (input a p e m).1
      exact ⟨g1.trans f1, g2.trans f2, g3.trans f3, g4.trans f4,
             g5.trans f5, g6.trans f6, g7.trans f7⟩

/-- Claim C8: for every browser instruction whose type is one of the nine
declared instruction names, the translation returns the remote browser
command with the corresponding command type, the instruction data
(empty string when absent) and the instruction selector (empty string
when absent). -/
theorem instruction_to_command_correct (i : BrowserInstruction)
    (c : WebBrowserCommandType) (h : specCommandTypeFor i.type = some c) :
    webBrowserInstructionToCommand i =
      { command_type := CommandTypeVal.cmd c,
        data := i.data.getD "",
        selector := i.selector.getD "" } := by
  unfold specCommandTypeFor at h
  unfold webBrowserInstructionToCommand
  split_ifs at h <;>
    simp_all [webBrowserInstructionToCommand, BrowserInstructionType.value]

/-- Witness for C8 at a concrete instruction: a Scrollx instruction with
a selector and no data translates to SCROLL_X with empty data. -/
theorem instruction_to_command_correct_witness :
    specCommandTypeFor "Scrollx" = some WebBrowserCommandType.SCROLL_X ∧
    webBrowserInstructionToCommand
        { type := "Scrollx", selector := some "#page", data := none } =
      { command_type := CommandTypeVal.cmd WebBrowserCommandType.SCROLL_X,
        data := "", selector := "#page" } :=
  ⟨rfl, instruction_to_command_correct
    { type := "Scrollx", selector := some "#page", data := none }
    WebBrowserCommandType.SCROLL_X rfl⟩

/-- Claim C9: whenever the asset creation attempted inside
`_upload_asset_from_url` raises, the function swallows the exception and
returns its `asset` argument unchanged — the original URL or data-URI
string, or `None` when no asset was supplied — rather than an asset
object. -/
theorem upload_asset_failure_returns_argument (store : AssetStore)
    (request_user : Option UserRec) (app_uuid : String) (asset : Option String)
    (file_name mime_type : Option String) (e : String)
    (h : uploadTryCreate store request_user app_uuid asset file_name mime_type =
      Except.error e) :
    upload_asset_from_url store request_user app_uuid asset file_name mime_type =
      Sum.inl asset := by
  unfold upload_asset_from_url
  rw [h]

/-- Witness for C9: a store whose creation operations raise makes the
upload return the original URL string. -/
theorem upload_asset_failure_returns_argument_witness :
    upload_asset_from_url
        { create_streaming_asset := fun _ => Except.error "db down",
          create_from_data_uri := fun _ _ => Except.error "db down",
          create_from_url := fun _ _ => Except.error "db down" }
        (some { email := "user@example.com" }) "app-1"
        (some "https://example.com/img.png") none (some "image/png") =
      Sum.inl (some "https://example.com/img.png") :=
  upload_asset_failure_returns_argument _ _ _ _ _ _ "db down" rfl

theorem errorPath_state (a : ActorState) (proc : Processor) (env : Env)
    (e : String) (pre : List Event) : (errorPath a proc env e pre).1 = a :=
  epilogue_state a proc env (errorOutput e) (pre ++ [Event.errorSig e])

theorem runProcess_state (a : ActorState) (proc : Processor) (env : Env) :
    (runProcess a proc env).1 = a := by
  cases hpr : proc.processResult with
  | ok out => unfold runProcess; rw [hpr]; exact epilogue_state _ _ _ _ _
  | error e => unfold runProcess; rw [hpr]; exact errorPath_state _ _ _ _ _

theorem countProcessCalls_epilogue (a : ActorState) (proc : Processor) (env : Env)
    (output : Value) (pre : List Event) :
    countProcessCalls (epilogue a proc env output pre).2 = countProcessCalls pre := by
  obtain ⟨b, htr, -⟩ := epilogue_trace a proc env output pre
  rw [htr, countProcessCalls_append, countProcessCalls_append]
  cases a.is_tool <;> simp [countProcessCalls]

theorem countProcessCalls_runProcess (a : ActorState) (proc : Processor) (env : Env) :
    countProcessCalls (runProcess a proc env).2 = 1 := by
  cases hpr : proc.processResult with
  | ok out =>
      unfold runProcess; rw [hpr]
      rw [countProcessCalls_epilogue]; rfl
  | error e =>
      unfold runProcess; rw [hpr]
      unfold errorPath
      rw [countProcessCalls_epilogue, countProcessCalls_append]; rfl

/-- The epilogue (and hence `runProcess`) reads only the save outcome and
the clock from the environment, never the hydration function. -/
theorem runProcess_hydrate_irrelevant (a : ActorState) (proc : Processor)
    (h1 h2 : Value → Option Value → Except String Value)
    (sr : Except String Unit) (now : Nat) :
    runProcess a proc { hydrate := h1, save_result := sr, now := now } =
      runProcess a proc { hydrate := h2, save_result := sr, now := now } := by
  cases hpr : proc.processResult <;>
    simp [runProcess, errorPath, epilogue, hpr]

/-- Claim C5: in normal mode (not a tool), calling `input` with no
message resolves the input and the config to the stored templates
unchanged, still runs `process()` exactly once, and never consults the
hydration function: the whole observable behaviour is the same for any
two hydration functions. -/
theorem normal_mode_no_message_uses_templates (a : ActorState) (proc : Processor)
    (h1 h2 : Value → Option Value → Except String Value)
    (sr : Except String Unit) (now : Nat)
    (htool : a.is_tool = false) :
    ((input a proc { hydrate := h1, save_result := sr, now := now } none).1).resolved_input
        = a.input_template ∧
    ((input a proc { hydrate := h1, save_result := sr, now := now } none).1).resolved_config
        = a.config_template ∧
    countProcessCalls
        (input a proc { hydrate := h1, save_result := sr, now := now } none).2 = 1 ∧
    input a proc { hydrate := h1, save_result := sr, now := now } none =
      input a proc { hydrate := h2, save_result := sr, now := now } none := by
  have hred : ∀ h : Value → Option Value → Except String Value,
      input a proc { hydrate := h, save_result := sr, now := now } none =
        runProcess { a with resolved_input := a.input_template,
                            resolved_config := a.config_template }
          proc { hydrate := h, save_result := sr, now := now } := by
    intro h
    unfold input
    rw [if_neg (by simp [htool]), if_neg (by simp [htool])]
    simp only [msgTruthy, Bool.and_false, Bool.false_eq_true, if_false]
  refine ⟨?_, ?_, ?_, ?_⟩
  · rw [hred h1, runProcess_state]
  · rw [hred h1, runProcess_state]
  · rw [hred h1, countProcessCalls_runProcess]
  · rw [hred h1, hred h2]
    exact runProcess_hydrate_irrelevant _ _ h1 h2 sr now

/-- Claim C6 (amended): in tool mode with no declared input fields, the
resolved input is the input schema class constructed directly from the
key-value content of the message — no template substitution is applied to
it, though schema validation may normalize it, e.g. add declared default
fields — the config is hydrated from the message, and `process()` then
runs exactly once. -/
theorem tool_mode_verbatim_construction (a : ActorState) (proc : Processor)
    (env : Env) (kvs : List (String × Value)) (v cfg : Value)
    (htool : a.is_tool = true) (hf : a.input_fields = [])
    (hmk : proc.mkInput kvs = Except.ok v)
    (hcf : env.hydrate a.config_template (some (Value.dict kvs)) = Except.ok cfg) :
    ((input a proc env (some (Value.dict kvs))).1).resolved_input = v ∧
    ((input a proc env (some (Value.dict kvs))).1).resolved_config = cfg ∧
    countProcessCalls (input a proc env (some (Value.dict kvs))).2 = 1 := by
  have hred : input a proc env (some (Value.dict kvs)) =
      runProcess { a with resolved_input := v, resolved_config := cfg } proc env := by
    unfold input
    rw [if_pos (by simp [htool, hf])]
    dsimp only [kwargsOf]
    rw [hmk]
    dsimp only
    rw [hcf]
  rw [hred, runProcess_state, countProcessCalls_runProcess]
  exact ⟨rfl, rfl, rfl⟩

theorem outputToDict_errorOutput (m : String) :
    outputToDict (errorOutput m) = errorOutput m := rfl

/-- Claim C2 (amended): whenever hydration, input construction or
`process()` raises with message m during a call of `input`, the error
signal fires on the output stream with that message strictly before the
single bookkeep emission — for every processor, whether or not it
supplies a custom bookkeeping record — and whenever the processor
supplies no custom record (the interface default), the record emitted
carries exactly the synthesized payload with the error list and the 400
raw response as its output. -/
theorem error_signal_precedes_bookkeep_with_error_output (a : ActorState)
    (proc : Processor) (env : Env) (message : Option Value) (m : String)
    (hmem : Event.errorSig m ∈ (input a proc env message).2) :
    ∃ (pre : List Event) (b : BookKeepingData),
      (input a proc env message).2 =
        pre ++ [Event.errorSig m,
                Event.save a.session_id a.id b.session_data env.save_result,
                Event.bookkeep (some b)]
          ++ (if a.is_tool then [Event.onStop] else []) ∧
      (proc.get_bookkeeping_data = none → b.output = errorOutput m) := by
  obtain ⟨a2, pre0, out, heq, -, -, -, h4, -, h6, h7, hpre⟩ :=
    input_shape a proc env message
  obtain ⟨b, htr, hout⟩ := epilogue_trace a2 proc env out pre0
  rw [heq, htr, h4, h6, h7] at hmem ⊢
  rcases hpre with hp | ⟨m0, hout0, hp | hp⟩
  · subst hp
    exfalso
    cases hit : a.is_tool <;> simp [hit] at hmem
  · subst hp
    have hm : m = m0 := by
      cases hit : a.is_tool <;> simpa [hit] using hmem
    subst hm
    refine ⟨[], b, by simp, fun hbk => ?_⟩
    obtain ⟨hbout, -⟩ := hout hbk
    rw [hbout, hout0, outputToDict_errorOutput]
  · subst hp
    have hm : m = m0 := by
      cases hit : a.is_tool <;> simpa [hit] using hmem
    subst hm
    refine ⟨[Event.processCall], b, by simp, fun hbk => ?_⟩
    obtain ⟨hbout, -⟩ := hout hbk
    rw [hbout, hout0, outputToDict_errorOutput]

/-- Claim C3 (amended): every call of `input` invokes
`save_app_session_data` exactly once — for every processor, whether or
not the actor is session-enabled — and whenever the processor supplies
no custom bookkeeping record (the interface default), the mapping
persisted is the dictionary returned by `session_data_to_persist()` when
the actor is session-enabled and the empty mapping otherwise. -/
theorem session_save_once_and_persists_delta (a : ActorState) (proc : Processor)
    (env : Env) (message : Option Value) :
    countSave (input a proc env message).2 = 1 ∧
    ∃ (pre : List Event) (b : BookKeepingData),
      (input a proc env message).2 =
        pre ++ [Event.save a.session_id a.id b.session_data env.save_result,
                Event.bookkeep (some b)]
          ++ (if a.is_tool then [Event.onStop] else []) ∧
      countSave pre = 0 ∧
      (proc.get_bookkeeping_data = none →
        b.session_data =
          (if a.session_enabled then proc.session_data_to_persist
           else Value.dict [])) := by
  obtain ⟨a2, pre0, out, heq, -, -, -, h4, h5, h6, h7, hpre⟩ :=
    input_shape a proc env message
  obtain ⟨b, htr, hout⟩ := epilogue_trace a2 proc env out pre0
  rw [heq, htr, h4, h6, h7]
  have hpre0 : countSave pre0 = 0 := by
    rcases hpre with hp | ⟨m0, -, hp | hp⟩ <;> simp [hp, countSave]
  constructor
  · rw [countSave_append, countSave_append, hpre0]
    cases a.is_tool <;> simp [countSave]
  · refine ⟨pre0, b, rfl, hpre0, fun hbk => ?_⟩
    obtain ⟨-, hsd⟩ := hout hbk
    rw [h5] at hsd
    exact hsd

/-- Claim C4 evaluated at the failing input: a processor whose
`process()` returns the bare integer 5 — neither a schema instance nor a
plain dict.  `input` performs no result-shape check (it calls `process()`
directly, never `validate_and_process`), so the invocation does not fail:
no error signal fires and the invalid value is recorded unchanged as the
output of the bookkeeping record. -/
theorem invalid_process_result_recorded_without_error :
    (input demoActor invalidResultProc demoEnv none).2 =
      [Event.processCall,
       Event.save "sess-0" "proc-0" (Value.dict []) (Except.ok ()),
       Event.bookkeep (some
         { input := Value.dict [], config := Value.dict [],
           output := Value.int 5, session_data := Value.dict [],
           timestamp := 7, disable_history := false,
           usage_data := Value.dict [("credits", Value.int 1000)] })] := rfl

/-- Counterexample to C2 as stated: with a processor that supplies a
custom bookkeeping record, `process()` raising `connection refused`
still signals the error, but the record emitted carries the custom
output, not the synthesized error payload. -/
theorem custom_bookkeeping_overrides_error_output :
    (input demoActor customBookkeepingProc demoEnv none).2 =
      [Event.processCall,
       Event.errorSig "connection refused",
       Event.save "sess-0" "proc-0" (Value.dict []) (Except.ok ()),
       Event.bookkeep (some
         { input := Value.dict [], config := Value.dict [],
           output := Value.dict [("custom", Value.bool true)],
           session_data := Value.dict [], timestamp := 0,
           disable_history := false,
           usage_data := Value.dict [("credits", Value.int 1000)] })] ∧
    Value.dict [("custom", Value.bool true)] ≠ errorOutput "connection refused" := by
  refine ⟨rfl, ?_⟩
  intro h
  simp [errorOutput] at h

/-- Witness for the amended C2 at a concrete failing call: the default
processor raises `connection refused` and the trace ends with the error
signal, the save and the bookkeep emission carrying the error payload. -/
theorem error_signal_precedes_bookkeep_witness :
    ∃ (pre : List Event) (b : BookKeepingData),
      (input demoActor failingProc demoEnv none).2 =
        pre ++ [Event.errorSig "connection refused",
                Event.save "sess-0" "proc-0" b.session_data (Except.ok ()),
                Event.bookkeep (some b)]
          ++ (if demoActor.is_tool then [Event.onStop] else []) ∧
      (failingProc.get_bookkeeping_data = none →
        b.output = errorOutput "connection refused") :=
  error_signal_precedes_bookkeep_with_error_output demoActor failingProc demoEnv
    none "connection refused" (List.Mem.tail _ (List.Mem.head _))

/-- Counterexample to C3 as stated, in two parts.  First: on a
session-disabled actor the session save is still invoked (here once,
with the empty mapping, even though the session delta hook returns a
nonempty dictionary).  Second: on a session-enabled actor whose
processor supplies a custom bookkeeping record, the mapping persisted is
the custom record session data (here the empty mapping), not the
dictionary returned by the session delta hook. -/
theorem session_save_runs_when_session_disabled :
    (sessionDisabledActor.session_enabled = false ∧
     sessionDeltaProc.session_data_to_persist = Value.dict [("counter", Value.int 1)] ∧
     (input sessionDisabledActor sessionDeltaProc demoEnv none).2 =
       [Event.processCall,
        Event.save "sess-3" "proc-3" (Value.dict []) (Except.ok ()),
        Event.bookkeep (some
          { input := Value.dict [], config := Value.dict [],
            output := Value.dict [("text", Value.str "done")],
            session_data := Value.dict [], timestamp := 7,
            disable_history := false,
            usage_data := Value.dict [("credits", Value.int 1000)] })]) ∧
    (demoActor.session_enabled = true ∧
     customDeltaProc.session_data_to_persist = Value.dict [("counter", Value.int 2)] ∧
     (input demoActor customDeltaProc demoEnv none).2 =
       [Event.processCall,
        Event.save "sess-0" "proc-0" (Value.dict []) (Except.ok ()),
        Event.bookkeep (some
          { input := Value.dict [], config := Value.dict [],
            output := Value.dict [("custom", Value.bool true)],
            session_data := Value.dict [], timestamp := 0,
            disable_history := false,
            usage_data := Value.dict [("credits", Value.int 1000)] })]) :=
  ⟨⟨rfl, rfl, rfl⟩, ⟨rfl, rfl, rfl⟩⟩

/-- Witness for C5 at the spec scenario: an actor with template input
url `https://example.com` invoked with no message executes with exactly
that template, even when the hydration function would raise if
consulted. -/
theorem normal_mode_no_message_witness :
    ((input normalActor okProc
        { hydrate := failingHydrate, save_result := Except.ok (), now := 7 }
        none).1).resolved_input = normalActor.input_template ∧
    ((input normalActor okProc
        { hydrate := failingHydrate, save_result := Except.ok (), now := 7 }
        none).1).resolved_config = normalActor.config_template ∧
    countProcessCalls
        (input normalActor okProc
          { hydrate := failingHydrate, save_result := Except.ok (), now := 7 }
          none).2 = 1 ∧
    input normalActor okProc
        { hydrate := failingHydrate, save_result := Except.ok (), now := 7 } none =
      input normalActor okProc
        { hydrate := identityHydrate, save_result := Except.ok (), now := 7 } none :=
  normal_mode_no_message_uses_templates normalActor okProc failingHydrate
    identityHydrate (Except.ok ()) 7 rfl

/-- Witness for the amended C6 at the spec scenario message: the resolved
input is the input class built from exactly the message content, the
config is hydrated, and `process()` runs once. -/
theorem tool_mode_verbatim_witness :
    ((input toolActor swbProc demoEnv (some (Value.dict specToolMessage))).1).resolved_input =
      Value.schema "StaticWebBrowserInput"
        [("url", Value.str "https://x.test"), ("instructions", Value.list [])] ∧
    ((input toolActor swbProc demoEnv (some (Value.dict specToolMessage))).1).resolved_config =
      Value.dict [] ∧
    countProcessCalls
        (input toolActor swbProc demoEnv (some (Value.dict specToolMessage))).2 = 1 :=
  tool_mode_verbatim_construction toolActor swbProc demoEnv specToolMessage
    (Value.schema "StaticWebBrowserInput"
      [("url", Value.str "https://x.test"), ("instructions", Value.list [])])
    (Value.dict []) rfl rfl rfl rfl

/-- Counterexample to C6 as stated: a tool-mode message whose instruction
omits the optional selector and data fields.  The input class constructed
from it gains those fields with null defaults, so the resolved input is
not exactly the key-value content of the message, although `process()`
still runs once. -/
theorem tool_mode_input_gains_default_fields :
    modelDump ((input toolActor swbProc demoEnv
        (some (Value.dict clickMessage))).1).resolved_input =
      Value.dict [("url", Value.str "https://x.test"),
                  ("instructions", Value.list [Value.dict
                    [("type", Value.str "Click"), ("selector", Value.null),
                     ("data", Value.null)]])] ∧
    Value.dict [("url", Value.str "https://x.test"),
                ("instructions", Value.list [Value.dict
                  [("type", Value.str "Click"), ("selector", Value.null),
                   ("data", Value.null)]])] ≠
      Value.dict clickMessage ∧
    countProcessCalls
        (input toolActor swbProc demoEnv (some (Value.dict clickMessage))).2 = 1 := by
  refine ⟨rfl, ?_, rfl⟩
  intro h
  simp [clickMessage] at h
